import Mathlib

/-!
# Verification of the `obsign` signing workflow

Shallow embedding of `src/obsign/__main__.py` (the `sign` subcommand).

File and directory names are modelled as lists of characters.  Python string
primitives used by the code (`s[-7:-4]` slicing, `int(...)` parsing,
`pathlib.Path.suffix`, substring containment, `f"{n:03}"` formatting and the
`glob` pattern `<name>.*.asc`) are embedded as executable Lean functions, and
the body of `sign` is embedded as a deterministic function from an environment
describing the results of the external tools (gpg, openssl, curl) to the
ordered trace of effects it performs together with its final outcome.
-/

namespace Obsign

/-- A file name (one path component), as a list of characters. -/
abbrev Name := List Char

/-! ## Python string and integer primitives -/

/-- Python slicing `s[-7:-4]`: the characters from position `len - 7`
(clamped at 0) up to, excluding, position `len - 4` (clamped at 0).
Natural-number subtraction performs exactly Python's clamping. -/
def slice74 (s : Name) : Name :=
  (s.take (s.length - 4)).drop (s.length - 7)

/-- Characters stripped by Python `int(str)` around the number
(ASCII whitespace: space, tab, newline, carriage return, vertical tab,
form feed). -/
def isPyWS (c : Char) : Bool :=
  c = ' ' || c = '\t' || c = '\n' || c = '\r' ||
    c = Char.ofNat 11 || c = Char.ofNat 12

/-- Strip leading and trailing Python whitespace. -/
def pyStrip (s : Name) : Name :=
  ((s.dropWhile isPyWS).reverse.dropWhile isPyWS).reverse

/-- Tail of a Python `digitpart` after its first digit: digits, with single
underscores allowed between two digits (CPython's grammar for `int(str)`). -/
def digitTail : Name → Bool
  | [] => true
  | [c] => if c = '_' then false else c.isDigit
  | c :: d :: rest =>
      if c = '_' then d.isDigit && digitTail rest
      else c.isDigit && digitTail (d :: rest)

/-- Python `digitpart`: `digit (["_"] digit)*`. -/
def digitpart : Name → Bool
  | [] => false
  | c :: rest => c.isDigit && digitTail rest

/-- Decimal value of a list of digit characters. -/
def decVal (s : Name) : Nat :=
  s.foldl (fun a c => 10 * a + (c.toNat - 48)) 0

/-- Value of a `digitpart`, ignoring the underscores. -/
def digitsVal (s : Name) : Nat :=
  decVal (s.filter (fun c => c ≠ '_'))

/-- Python `int(str)`: strip whitespace, allow one optional sign, then a
`digitpart` (digits with underscores between digits); `none` models the
`ValueError` raised on any other input. -/
def pyInt? (s : Name) : Option Int :=
  let t := pyStrip s
  if t.head? = some '+' then
    (if digitpart t.tail then some (digitsVal t.tail) else none)
  else if t.head? = some '-' then
    (if digitpart t.tail then some (-(digitsVal t.tail : Int)) else none)
  else if digitpart t then some (digitsVal t) else none

/-- Test `isPre a b`: `a` is an initial segment of `b` (Python `startswith`). -/
def isPre : Name → Name → Bool
  | [], _ => true
  | _ :: _, [] => false
  | a :: as, b :: bs => a = b && isPre as bs

/-- Test `isSuf a b`: `a` is a final segment of `b` (Python `endswith`). -/
def isSuf (a b : Name) : Bool :=
  isPre a.reverse b.reverse

/-- Python `pat in s`: substring containment. -/
def containsSub (pat : Name) : Name → Bool
  | [] => isPre pat []
  | c :: rest => isPre pat (c :: rest) || containsSub pat rest

/-- Decimal digit characters `'0'..'9'`. -/
def digitChar : Nat → Char
  | 0 => '0' | 1 => '1' | 2 => '2' | 3 => '3' | 4 => '4'
  | 5 => '5' | 6 => '6' | 7 => '7' | 8 => '8' | _ => '9'

/-- Decimal representation, with explicit fuel (the fuel is always
sufficient when called through `natChars`). -/
def natCharsAux : Nat → Nat → Name
  | 0, _ => []
  | fuel + 1, n =>
      if n < 10 then [digitChar n]
      else natCharsAux fuel (n / 10) ++ [digitChar (n % 10)]

/-- Decimal representation of a natural number, as characters. -/
def natChars (n : Nat) : Name :=
  natCharsAux (n + 1) n

/-- Python `f"{n:03}"` for a non-negative `n`: the decimal representation,
left-padded with `'0'` to a minimum width of 3. -/
def pad3 (n : Nat) : Name :=
  List.replicate (3 - (natChars n).length) '0' ++ natChars n

/-! ## Version scan (`sign`, lines 51–56) -/

/-- The characters of `".asc"`. -/
def ascExt : Name := ['.', 'a', 's', 'c']

/-- Whether `name` matches the glob pattern `<doc>.*.asc` used by
`SIGS_DIR.glob(f"{file.name}.*.asc")`: it starts with `<doc>.` and the
remainder after that prefix ends with `.asc` (`*` matches any characters,
including none). -/
def globMatch (doc name : Name) : Bool :=
  isPre (doc ++ ['.']) name && isSuf ascExt (name.drop (doc.length + 1))

/-- One iteration of the version-scan loop: for a matching file run
`(num := int(name[-7:-4]) + 1) > sig_number` and update the accumulator;
`none` records an uncaught `ValueError` from `int`. -/
def scanStep (doc : Name) (acc : Option Int) (name : Name) : Option Int :=
  match acc with
  | none => none
  | some sig =>
      if globMatch doc name then
        match pyInt? (slice74 name) with
        | none => none
        | some v => if v + 1 > sig then some (v + 1) else some sig
      else some sig

/-- The loop at lines 52–55: `sig_number = 0`, then fold the scan step over
the directory listing.  `some v` is the resulting `sig_number`; `none` is an
uncaught `ValueError`. -/
def nextVersion? (doc : Name) (files : List Name) : Option Int :=
  files.foldl (scanStep doc) (some 0)

/-- The artifact name `file.name + f".{v:03}.asc"` (line 56). -/
def artifactName (doc : Name) (v : Nat) : Name :=
  doc ++ '.' :: (pad3 v ++ ascExt)

/-- The directory listing `{D.000.asc, …, D.k.asc}`: every version from `0`
through `k`, each rendered by the program's own naming scheme. -/
def versionSet (doc : Name) (k : Nat) : List Name :=
  (List.range (k + 1)).map (artifactName doc)

/-! ## `pathlib.Path.suffix` -/

/-- Index of the last `'.'` in a name (Python `str.rfind('.')`),
or `none` when there is no dot. -/
def rfindDotIdx (s : Name) : Option Nat :=
  match s.reverse.findIdx? (fun c => c = '.') with
  | none => none
  | some j => some (s.length - 1 - j)

/-- Python `pathlib.Path.suffix` of a file name: `name[i:]` where `i` is the index
of the last dot, provided `0 < i < len(name) - 1`; otherwise the empty
string. -/
def pySuffix (s : Name) : Name :=
  match rfindDotIdx s with
  | none => []
  | some i => if 0 < i ∧ i < s.length - 1 then s.drop i else []

/-- The suffixes accepted by the `if file.suffix in [".md", ".txt", ".rst"]`
dispatch. -/
def supportedSuffixes : List Name :=
  [".md".toList, ".txt".toList, ".rst".toList]

/-! ## The `sign` workflow -/

/-- Captured result of an external process (`subprocess.run` with
`capture_output=True, text=True`). -/
structure ProcOut where
  exitCode : Nat
  stdout : Name
  stderr : Name
  deriving Repr, DecidableEq

/-- Everything outside the orchestrator's control that the body of `sign`
reads: the document's file name, the signature-directory listing seen by the
glob (in iteration order), and the behaviour of each external invocation. -/
structure Env where
  /-- Value of `file.name`, the final component of the document path. -/
  fileName : Name
  /-- Names of the files in the signature directory, in the order the
  `glob` iterates over them. -/
  dirFiles : List Name
  /-- Exit code of `gpg --output … --clearsign …`. -/
  signExit : Nat
  /-- Result of `gpg --verify …` (captured). -/
  verify : ProcOut
  /-- Exit code of `openssl ts -query …`. -/
  queryExit : Nat
  /-- Exit code of `curl … --output tsr_file`. -/
  curlExit : Nat
  /-- The response body curl writes into the response file (possibly
  empty); the orchestrator never reads it. -/
  curlBody : Name
  /-- Result of `openssl ts -verify …` (captured). -/
  tsVerify : ProcOut
  deriving Repr, DecidableEq

/-- The informational `console.print` lines, identified by position in the
source (their text is presentational). -/
inductive InfoTag where
  | signingFile
  | textFileDetected
  | createdSignedFile
  | blankLine
  | createdQueryFile
  | receivedResponse
  deriving Repr, DecidableEq

/-- One observable effect of `sign`, in program order. -/
inductive Event where
  /-- An informational `console.print`. -/
  | printInfo (tag : InfoTag)
  /-- A `console.print` in success (green) style carrying the given text. -/
  | printGreen (msg : Name)
  /-- A `console.print` in error (red) style carrying the given text. -/
  | printRed (msg : Name)
  /-- Invocation `subprocess.run(["gpg", "--output", out, "--clearsign", file])`. -/
  | runSign (out : Name)
  /-- Invocation `subprocess.run(["gpg", "--verify", target])`. -/
  | runVerify (target : Name)
  /-- Invocation `subprocess.run(["openssl", "ts", "-query", …, "-out", out])`. -/
  | runQuery (out : Name)
  /-- Call `open(path, "w")`: the orchestrator creates `path` (truncated/empty). -/
  | openWrite (path : Name)
  /-- Invocation `subprocess.run(["curl", …, "--output", out])`. -/
  | runCurl (out : Name)
  /-- Invocation `subprocess.run(["openssl", "ts", "-verify", "-in", tsr,
  "-queryfile", tsq, …])`. -/
  | runTsVerify (tsr tsq : Name)
  /-- Deletion of a file.  `sign` contains no deletion, so this event is
  never emitted; its absence from every trace is the no-cleanup property. -/
  | removeFile (path : Name)
  deriving Repr, DecidableEq

/-- Which step a `subprocess.run(..., check=True)` failure came from. -/
inductive StepTag where
  | signStep
  | verifyStep
  | queryStep
  | curlStep
  deriving Repr, DecidableEq

/-- How the call to `sign` ended. -/
inductive Outcome where
  /-- Normal return (process exit code 0). -/
  | ok
  /-- Outcome of `raise NotImplementedError` on an unsupported extension. -/
  | notImplementedError
  /-- Uncaught `ValueError` from `int(...)` in the version scan. -/
  | valueError
  /-- Uncaught `subprocess.CalledProcessError` (`check=True`). -/
  | calledProcessError (step : StepTag)
  /-- Failed `assert` statement. -/
  | assertionError
  deriving Repr, DecidableEq

/-- Files brought into existence by an event: files the orchestrator opens
for writing, and the output files of the external tools. -/
def wroteFile : Event → Option Name
  | .openWrite p => some p
  | .runSign p => some p
  | .runQuery p => some p
  | .runCurl p => some p
  | _ => none

/-- Result of `path.exists()` after the events `tr` have happened, for a path inside
the signature directory (which `sign` never clears). -/
def existsIn (tr : List Event) (p : Name) : Bool :=
  tr.any (fun e => wroteFile e = some p)

/-- The success marker searched for in `gpg --verify`'s diagnostic output. -/
def goodSig : Name := "Good signature".toList

/-- The extension appended to the signature artifact for the query file. -/
def tsqExt : Name := ".apple.tsq".toList

/-- The extension appended to the signature artifact for the response file. -/
def tsrExt : Name := ".apple.tsr".toList

/-- The tag prepended to the final verifier's output when printing it. -/
def opensslTsTag : Name := "openssl ts: ".toList

/-- The body of the `sign` command: the trace of effects it performs, in
order, together with its outcome.  Each branch mirrors the Python source
line by line. -/
def signRun (env : Env) : List Event × Outcome :=
  let t0 : List Event := [.printInfo .signingFile]
  if pySuffix env.fileName ∈ supportedSuffixes then
    let t1 := t0 ++ [.printInfo .textFileDetected]
    match nextVersion? env.fileName env.dirFiles with
    | none => (t1, .valueError)
    | some v =>
      let outputFile := artifactName env.fileName v.toNat
      let t2 := t1 ++ [.runSign outputFile]
      if env.signExit ≠ 0 then (t2, .calledProcessError .signStep)
      else
        let t3 := t2 ++ [.printInfo .createdSignedFile, .runVerify outputFile]
        if env.verify.exitCode ≠ 0 then (t3, .calledProcessError .verifyStep)
        else if containsSub goodSig env.verify.stderr then
          let t4 := t3 ++ [.printGreen env.verify.stderr, .printInfo .blankLine]
          let tsqFile := outputFile ++ tsqExt
          let t5 := t4 ++ [.runQuery tsqFile]
          if env.queryExit ≠ 0 then (t5, .calledProcessError .queryStep)
          else
            let t6 := t5 ++ [.printInfo .createdQueryFile]
            let tsrFile := outputFile ++ tsrExt
            let t7 := t6 ++ [.openWrite tsrFile, .runCurl tsrFile]
            if env.curlExit ≠ 0 then (t7, .calledProcessError .curlStep)
            else if existsIn t7 tsrFile then
              let t8 := t7 ++ [.printInfo .receivedResponse, .runTsVerify tsrFile tsqFile]
              if env.tsVerify.exitCode = 0 then
                (t8 ++ [.printGreen (opensslTsTag ++ env.tsVerify.stdout)], .ok)
              else
                (t8 ++ [.printRed env.tsVerify.stdout, .printRed env.tsVerify.stderr], .ok)
            else (t7, .assertionError)
        else
          (t3 ++ [.printRed env.verify.stderr], .ok)
  else
    (t0, .notImplementedError)

/-! ## Concrete environments used in counterexamples and witnesses -/

/-- A baseline run: `notes.md`, empty signature directory, every external
tool succeeding with plausible output. -/
def envBase : Env :=
  { fileName := "notes.md".toList
    dirFiles := []
    signExit := 0
    verify := { exitCode := 0, stdout := [],
                stderr := "gpg: Good signature from Alice".toList }
    queryExit := 0
    curlExit := 0
    curlBody := []
    tsVerify := { exitCode := 0, stdout := "Verification: OK".toList, stderr := [] } }

/-- Baseline, but the input has an unsupported extension. -/
def envPdf : Env := { envBase with fileName := "notes.pdf".toList }

/-- Baseline, but the directory holds a matching artifact whose version
slice is not parseable (`x.md.backup.asc`, slice `kup`). -/
def envBadArtifact : Env :=
  { envBase with fileName := "x.md".toList
                 dirFiles := ["x.md.backup.asc".toList] }

/-- Baseline, but the directory holds a matching artifact whose version
slice `+12` is not made of digits yet parses (`int("+12") = 12`). -/
def envPlusArtifact : Env :=
  { envBase with fileName := "x.md".toList
                 dirFiles := ["x.md.+12.asc".toList] }

/-- Baseline, but `gpg --verify` exits non-zero while its diagnostic still
contains the success marker. -/
def envVerifyExit1 : Env :=
  { envBase with verify := { exitCode := 1, stdout := [],
                             stderr := "gpg: Good signature but dubious".toList } }

/-- Baseline, but the signer exits non-zero. -/
def envSignFail : Env := { envBase with signExit := 2 }

/-- Baseline, but `openssl ts -query` exits non-zero. -/
def envQueryFail : Env := { envBase with queryExit := 1 }

/-- Baseline, but `curl` exits non-zero. -/
def envCurlFail : Env := { envBase with curlExit := 7 }

/-- Baseline, but the final `openssl ts -verify` exits non-zero. -/
def envTsvFail : Env :=
  { envBase with tsVerify := { exitCode := 1,
                               stdout := "Verification failure".toList,
                               stderr := "boom".toList } }

/-- Baseline, but the verify diagnostic lacks the success marker. -/
def envNoSig : Env :=
  { envBase with verify := { exitCode := 0, stdout := [],
                             stderr := "gpg: BAD signature".toList } }

/-- Baseline with the canonical artifact set `notes.md.000.asc … .00k.asc`. -/
def envVersions (k : Nat) : Env :=
  { envBase with dirFiles := versionSet ("notes.md".toList) k }

/-! ## Lemmas about the string primitives -/

theorem isPre_iff : ∀ a b : Name, isPre a b = true ↔ ∃ t, b = a ++ t
  | [], b => by simp [isPre]
  | x :: as, [] => by simp [isPre]
  | x :: as, y :: bs => by
    simp only [isPre, Bool.and_eq_true, decide_eq_true_eq, isPre_iff as bs,
      List.cons_append, List.cons.injEq]
    constructor
    · rintro ⟨rfl, t, rfl⟩; exact ⟨t, rfl, rfl⟩
    · rintro ⟨t, rfl, rfl⟩; exact ⟨rfl, t, rfl⟩

theorem isSuf_iff (a b : Name) : isSuf a b = true ↔ ∃ t, b = t ++ a := by
  rw [isSuf, isPre_iff]
  constructor
  · rintro ⟨t, ht⟩
    refine ⟨t.reverse, ?_⟩
    have := congrArg List.reverse ht
    simpa [List.reverse_append] using this
  · rintro ⟨t, rfl⟩
    exact ⟨t.reverse, by simp [List.reverse_append]⟩

theorem isPre_append_self (a t : Name) : isPre a (a ++ t) = true :=
  (isPre_iff a (a ++ t)).mpr ⟨t, rfl⟩

theorem isSuf_append_self (a t : Name) : isSuf a (t ++ a) = true :=
  (isSuf_iff a (t ++ a)).mpr ⟨t, rfl⟩

theorem digitChar_isDigit (n : Nat) : (digitChar n).isDigit = true := by
  unfold digitChar
  split <;> decide

theorem digitChar_toNat (n : Nat) (h : n < 10) : (digitChar n).toNat - 48 = n := by
  interval_cases n <;> decide

theorem ne_of_digit {c d : Char} (h : c.isDigit = true) (hd : d.isDigit = false) : c ≠ d := by
  rintro rfl; rw [h] at hd; cases hd

theorem natCharsAux_digits : ∀ fuel n : Nat, ∀ c ∈ natCharsAux fuel n, c.isDigit = true
  | 0, n => by simp [natCharsAux]
  | fuel + 1, n => by
    intro c hc
    unfold natCharsAux at hc
    split at hc
    · simp only [List.mem_singleton] at hc
      subst hc; exact digitChar_isDigit _
    · rcases List.mem_append.1 hc with h | h
      · exact natCharsAux_digits fuel (n / 10) c h
      · simp only [List.mem_singleton] at h
        subst h; exact digitChar_isDigit _

theorem decVal_append_singleton (xs : Name) (c : Char) :
    decVal (xs ++ [c]) = 10 * decVal xs + (c.toNat - 48) := by
  simp [decVal, List.foldl_append]

theorem natCharsAux_decVal : ∀ fuel n : Nat, n < fuel → decVal (natCharsAux fuel n) = n
  | 0, n, h => absurd h (by omega)
  | fuel + 1, n, h => by
    unfold natCharsAux
    split
    · next h10 =>
      show decVal ([] ++ [digitChar n]) = n
      rw [decVal_append_singleton]
      have := digitChar_toNat n h10
      simp [decVal]
      omega
    · next h10 =>
      rw [decVal_append_singleton]
      have hdiv : n / 10 < fuel := by
        have : n / 10 < n := Nat.div_lt_self (by omega) (by omega)
        omega
      rw [natCharsAux_decVal fuel (n / 10) hdiv]
      rw [digitChar_toNat (n % 10) (Nat.mod_lt n (by omega))]
      omega

theorem natChars_decVal (n : Nat) : decVal (natChars n) = n :=
  natCharsAux_decVal (n + 1) n (Nat.lt_succ_self n)

theorem natChars_digits (n : Nat) : ∀ c ∈ natChars n, c.isDigit = true :=
  natCharsAux_digits (n + 1) n

theorem natChars_ne_nil (n : Nat) : natChars n ≠ [] := by
  unfold natChars natCharsAux
  split <;> simp

theorem natCharsAux_length : ∀ fuel n d : Nat, n < fuel → n < 10 ^ (d + 1) →
    (natCharsAux fuel n).length ≤ d + 1
  | 0, n, d, h, _ => absurd h (by omega)
  | fuel + 1, n, d, h, hd => by
    unfold natCharsAux
    split
    · simp
    · next h10 =>
      rcases d with _ | d
      · exfalso
        have : (10:Nat) ^ 1 = 10 := by norm_num
        omega
      · rw [List.length_append, List.length_singleton]
        have hdiv : n / 10 < fuel := by
          have : n / 10 < n := Nat.div_lt_self (by omega) (by omega)
          omega
        have hlt : n / 10 < 10 ^ (d + 1) := by
          rw [Nat.div_lt_iff_lt_mul (by norm_num : (0:Nat) < 10)]
          calc n < 10 ^ (d + 1 + 1) := hd
            _ = 10 ^ (d + 1) * 10 := by rw [pow_succ]
        have := natCharsAux_length fuel (n / 10) d hdiv hlt
        omega

theorem pad3_digits (v : Nat) : ∀ c ∈ pad3 v, c.isDigit = true := by
  intro c hc
  rcases List.mem_append.1 hc with h | h
  · rw [List.eq_of_mem_replicate h]; decide
  · exact natChars_digits v c h

theorem pad3_length_ge (v : Nat) : 3 ≤ (pad3 v).length := by
  rw [pad3, List.length_append, List.length_replicate]
  omega

theorem pad3_length_eq (v : Nat) (hv : v ≤ 999) : (pad3 v).length = 3 := by
  have h3 : (natChars v).length ≤ 3 := by
    have : (10:Nat) ^ (2 + 1) = 1000 := by norm_num
    exact natCharsAux_length (v + 1) v 2 (Nat.lt_succ_self v) (by omega)
  rw [pad3, List.length_append, List.length_replicate]
  omega

theorem pad3_ne_nil (v : Nat) : pad3 v ≠ [] := by
  have := pad3_length_ge v
  intro h
  rw [h] at this
  simp at this

theorem decVal_replicate_zero_append : ∀ (k : Nat) (s : Name),
    decVal (List.replicate k '0' ++ s) = decVal s
  | 0, s => by simp
  | k + 1, s => by
    rw [List.replicate_succ, List.cons_append]
    have h0 : decVal ('0' :: (List.replicate k '0' ++ s)) =
        decVal (List.replicate k '0' ++ s) := by
      simp [decVal, List.foldl_cons]
    rw [h0, decVal_replicate_zero_append k s]

theorem pad3_decVal (v : Nat) : decVal (pad3 v) = v := by
  rw [pad3, decVal_replicate_zero_append, natChars_decVal]

theorem digitTail_of_digits : ∀ s : Name, (∀ c ∈ s, c.isDigit = true) → digitTail s = true
  | [], _ => rfl
  | [c], h => by
    have hc : c.isDigit = true := h c (List.mem_singleton.mpr rfl)
    have hne : c ≠ '_' := ne_of_digit hc (by decide)
    rw [digitTail, if_neg hne, hc]
  | c :: d :: rest, h => by
    have hc : c.isDigit = true := h c (List.mem_cons_self c (d :: rest))
    have hne : c ≠ '_' := ne_of_digit hc (by decide)
    rw [digitTail, if_neg hne, hc,
      digitTail_of_digits (d :: rest) (fun e he => h e (List.mem_cons_of_mem c he))]
    rfl

theorem digitpart_of_digits (s : Name) (hne : s ≠ []) (h : ∀ c ∈ s, c.isDigit = true) :
    digitpart s = true := by
  rcases s with _ | ⟨c, rest⟩
  · exact absurd rfl hne
  · rw [digitpart, h c (List.mem_cons_self c rest),
      digitTail_of_digits rest (fun d hd => h d (List.mem_cons_of_mem c hd))]
    rfl

theorem isPyWS_eq_false_of_digit {c : Char} (h : c.isDigit = true) : isPyWS c = false := by
  have h1 : c ≠ ' ' := ne_of_digit h (by decide)
  have h2 : c ≠ '\t' := ne_of_digit h (by decide)
  have h3 : c ≠ '\n' := ne_of_digit h (by decide)
  have h4 : c ≠ '\r' := ne_of_digit h (by decide)
  have h5 : c ≠ Char.ofNat 11 := ne_of_digit h (by decide)
  have h6 : c ≠ Char.ofNat 12 := ne_of_digit h (by decide)
  simp [isPyWS, h1, h2, h3, h4, h5, h6]

theorem dropWhile_eq_self_of_no_ws (s : Name) (h : ∀ c ∈ s, isPyWS c = false) :
    s.dropWhile isPyWS = s := by
  rcases s with _ | ⟨c, rest⟩
  · rfl
  · rw [List.dropWhile_cons, h c (List.mem_cons_self c rest)]
    simp

theorem pyStrip_of_digits (s : Name) (h : ∀ c ∈ s, c.isDigit = true) : pyStrip s = s := by
  have hws : ∀ c ∈ s, isPyWS c = false := fun c hc => isPyWS_eq_false_of_digit (h c hc)
  rw [pyStrip, dropWhile_eq_self_of_no_ws s hws,
    dropWhile_eq_self_of_no_ws s.reverse (fun c hc => hws c (List.mem_reverse.1 hc)),
    List.reverse_reverse]

theorem filter_eq_self_of_digits (s : Name) (h : ∀ c ∈ s, c.isDigit = true) :
    s.filter (fun c => c ≠ '_') = s := by
  rw [List.filter_eq_self]
  intro a ha
  simp only [ne_eq, decide_eq_true_eq]
  exact ne_of_digit (h a ha) (by decide)

theorem pyInt_pad3 (v : Nat) : pyInt? (pad3 v) = some (v : Int) := by
  have hd := pad3_digits v
  obtain ⟨c, rest, hcr⟩ := List.exists_cons_of_ne_nil (pad3_ne_nil v)
  have hc : c.isDigit = true := hd c (hcr ▸ List.mem_cons_self c rest)
  have hplus : c ≠ '+' := ne_of_digit hc (by decide)
  have hminus : c ≠ '-' := ne_of_digit hc (by decide)
  have hdp : digitpart (pad3 v) = true := digitpart_of_digits _ (pad3_ne_nil v) hd
  rw [pyInt?]
  simp only [pyStrip_of_digits _ hd]
  rw [hcr]
  simp only [List.head?_cons]
  rw [if_neg (by simpa using hplus), if_neg (by simpa using hminus), ← hcr, if_pos hdp]
  rw [digitsVal, filter_eq_self_of_digits _ hd, pad3_decVal]

/-! ## Lemmas about the version scan -/

theorem artifactName_eq_append (D : Name) (v : Nat) :
    artifactName D v = ((D ++ ['.']) ++ pad3 v) ++ ascExt := by
  simp [artifactName]

theorem artifactName_length (D : Name) (v : Nat) (h3 : (pad3 v).length = 3) :
    (artifactName D v).length = D.length + 8 := by
  rw [artifactName_eq_append]
  simp [ascExt, h3]

theorem slice74_artifact (D : Name) (v : Nat) (h3 : (pad3 v).length = 3) :
    slice74 (artifactName D v) = pad3 v := by
  rw [slice74, artifactName_length D v h3]
  have e4 : D.length + 8 - 4 = D.length + 4 := by omega
  have e7 : D.length + 8 - 7 = D.length + 1 := by omega
  rw [e4, e7, artifactName_eq_append]
  rw [List.take_left' (by simp [h3])]
  rw [List.drop_left' (by simp)]

theorem globMatch_artifact_self (D : Name) (v : Nat) :
    globMatch D (artifactName D v) = true := by
  have hname : artifactName D v = (D ++ ['.']) ++ (pad3 v ++ ascExt) := by
    simp [artifactName]
  rw [globMatch, hname, List.drop_left' (by simp), isPre_append_self, isSuf_append_self]
  rfl

theorem scanStep_none (D : Name) (x : Name) : scanStep D none x = none := rfl

theorem scanStep_no_match (D : Name) (acc : Option Int) (x : Name)
    (h : globMatch D x = false) : scanStep D acc x = acc := by
  rcases acc with _ | s <;> simp [scanStep, h]

theorem scanStep_artifact (D : Name) (s : Int) (v : Nat) (hv : v ≤ 999) :
    scanStep D (some s) (artifactName D v) =
      if (v : Int) + 1 > s then some ((v : Int) + 1) else some s := by
  rw [scanStep, if_pos (globMatch_artifact_self D v),
    slice74_artifact D v (pad3_length_eq v hv), pyInt_pad3 v]

theorem foldl_scanStep_none (D : Name) : ∀ files : List Name,
    files.foldl (scanStep D) none = none
  | [] => rfl
  | x :: rest => by
    rw [List.foldl_cons, scanStep_none]
    exact foldl_scanStep_none D rest

theorem foldl_scanStep_no_match (D : Name) : ∀ (files : List Name) (acc : Option Int),
    (∀ f ∈ files, globMatch D f = false) → files.foldl (scanStep D) acc = acc
  | [], acc, _ => rfl
  | x :: rest, acc, h => by
    rw [List.foldl_cons, scanStep_no_match D acc x (h x (List.mem_cons_self x rest))]
    exact foldl_scanStep_no_match D rest acc fun f hf => h f (List.mem_cons_of_mem x hf)

/-- With no artifact matching the glob pattern, the computed version is 0. -/
theorem nextVersion_no_match (D : Name) (files : List Name)
    (h : ∀ f ∈ files, globMatch D f = false) : nextVersion? D files = some 0 :=
  foldl_scanStep_no_match D files (some 0) h

/-- A file that does not match the glob pattern never changes the scan's
result, wherever it sits in the directory listing. -/
theorem nextVersion_append_no_match (D : Name) (files : List Name) (x : Name)
    (h : globMatch D x = false) :
    nextVersion? D (files ++ [x]) = nextVersion? D files := by
  rw [nextVersion?, nextVersion?, List.foldl_append, List.foldl_cons, List.foldl_nil,
    scanStep_no_match D _ x h]

/-- A matching file whose version slice `int(...)` rejects makes the whole
scan raise `ValueError`, wherever it sits in the directory listing. -/
theorem nextVersion_none_of_bad (D : Name) : ∀ (files : List Name) (f : Name),
    f ∈ files → globMatch D f = true → pyInt? (slice74 f) = none →
    nextVersion? D files = none := by
  have key : ∀ (files : List Name) (acc : Option Int) (f : Name),
      f ∈ files → globMatch D f = true → pyInt? (slice74 f) = none →
      files.foldl (scanStep D) acc = none := by
    intro files
    induction files with
    | nil => intro acc f hf; exact absurd hf (List.not_mem_nil f)
    | cons x rest ih =>
      intro acc f hf hg hp
      rcases List.mem_cons.1 hf with rfl | hf
      · rw [List.foldl_cons]
        have hx : scanStep D acc f = none := by
          rcases acc with _ | s
          · rfl
          · rw [scanStep, if_pos hg, hp]
        rw [hx]
        exact foldl_scanStep_none D rest
      · rw [List.foldl_cons]
        exact ih (scanStep D acc x) f hf hg hp
  intro files f hf hg hp
  exact key files (some 0) f hf hg hp

/-- The canonical directory `{D.000.asc, …, D.k.asc}` yields version `k + 1`
as long as every version fits in three digits. -/
theorem nextVersion_versionSet (D : Name) : ∀ k : Nat, k ≤ 999 →
    nextVersion? D (versionSet D k) = some ((k : Int) + 1)
  | 0, _ => by
    show scanStep D (some 0) (artifactName D 0) = some 1
    rw [scanStep_artifact D 0 0 (by omega)]
    norm_num
  | k + 1, hk => by
    rw [nextVersion?, versionSet, List.range_succ, List.map_append, List.foldl_append]
    have ih : nextVersion? D (versionSet D k) = some ((k : Int) + 1) :=
      nextVersion_versionSet D k (by omega)
    rw [nextVersion?, versionSet] at ih
    rw [ih, List.map_singleton, List.foldl_cons, List.foldl_nil,
      scanStep_artifact D ((k : Int) + 1) (k + 1) hk]
    rw [if_pos (by push_cast; omega)]

theorem scanStep_match_parsed (D : Name) (x : Name) (s vx : Int)
    (hx : globMatch D x = true) (px : pyInt? (slice74 x) = some vx) :
    scanStep D (some s) x = if vx + 1 > s then some (vx + 1) else some s := by
  rw [scanStep, if_pos hx, px]

theorem scanStep_match_bad (D : Name) (x : Name) (s : Int)
    (hx : globMatch D x = true) (px : pyInt? (slice74 x) = none) :
    scanStep D (some s) x = none := by
  rw [scanStep, if_pos hx, px]

/-- Processing two directory entries commutes: the scan's result does not
depend on the order in which `glob` yields the files. -/
theorem scanStep_comm (D : Name) (acc : Option Int) (x y : Name) :
    scanStep D (scanStep D acc x) y = scanStep D (scanStep D acc y) x := by
  rcases acc with _ | s
  · simp only [scanStep_none]
  · rcases hx : globMatch D x with _ | _
    · rw [scanStep_no_match D (some s) x hx,
        scanStep_no_match D (scanStep D (some s) y) x hx]
    · rcases hy : globMatch D y with _ | _
      · rw [scanStep_no_match D (some s) y hy,
          scanStep_no_match D (scanStep D (some s) x) y hy]
      · rcases px : pyInt? (slice74 x) with _ | vx
        · rw [scanStep_match_bad D x s hx px, scanStep_none]
          rcases hyv : scanStep D (some s) y with _ | t
          · rw [scanStep_none]
          · rw [scanStep_match_bad D x t hx px]
        · rcases py : pyInt? (slice74 y) with _ | vy
          · rw [scanStep_match_bad D y s hy py, scanStep_none,
              scanStep_match_parsed D x s vx hx px]
            split <;> rw [scanStep_match_bad D y _ hy py]
          · rw [scanStep_match_parsed D x s vx hx px,
              scanStep_match_parsed D y s vy hy py]
            split <;> split <;>
              rw [scanStep_match_parsed D y _ vy hy py,
                scanStep_match_parsed D x _ vx hx px] <;>
              split_ifs <;> (try rfl) <;> (try (exfalso; omega)) <;> (congr 1; omega)

/-- The scan is invariant under reordering of the directory listing. -/
theorem nextVersion_perm (D : Name) (files₁ files₂ : List Name)
    (h : files₁.Perm files₂) : nextVersion? D files₁ = nextVersion? D files₂ :=
  List.Perm.foldl_eq' h (fun x _ y _ acc => scanStep_comm D acc x y) (some 0)

theorem artifactName_eq_append_right (E : Name) (v : Nat) :
    artifactName E v = (E ++ ['.']) ++ (pad3 v ++ ascExt) := by
  simp [artifactName]

/-- An artifact of a document `E` distinct from `D` — and not of the form
`D.<anything>` — never matches `D`'s glob pattern `D.*.asc`. -/
theorem globMatch_artifact_other (D E : Name) (v : Nat)
    (hne : E ≠ D) (hpre : ∀ s, E ≠ D ++ '.' :: s) :
    globMatch D (artifactName E v) = false := by
  cases hg : globMatch D (artifactName E v) with
  | false => rfl
  | true =>
    exfalso
    rw [globMatch, Bool.and_eq_true] at hg
    obtain ⟨h1, h2⟩ := hg
    rw [isPre_iff] at h1
    obtain ⟨t, ht⟩ := h1
    have hEq : (E ++ ['.']) ++ (pad3 v ++ ascExt) = (D ++ ['.']) ++ t := by
      rw [← artifactName_eq_append_right, ht]
    by_cases hle : D.length ≤ E.length
    · -- `D.` would have to be an initial segment of `E.`
      have hA : (E ++ ['.'] ++ (pad3 v ++ ascExt)).take (D.length + 1) =
          (E ++ ['.']).take (D.length + 1) :=
        List.take_append_of_le_length (by simp; omega)
      have hB : (D ++ ['.'] ++ t).take (D.length + 1) = D ++ ['.'] :=
        List.take_left' (by simp)
      have hT := congrArg (List.take (D.length + 1)) hEq
      simp only [hA, hB] at hT
      have hsplit : E ++ ['.'] = (D ++ ['.']) ++ (E ++ ['.']).drop (D.length + 1) := by
        conv_lhs => rw [← List.take_append_drop (D.length + 1) (E ++ ['.'])]
        rw [hT]
      rcases List.eq_nil_or_concat ((E ++ ['.']).drop (D.length + 1)) with hu | ⟨w, c, hu⟩
      · rw [hu, List.append_nil] at hsplit
        exact hne (List.append_inj_left' hsplit rfl)
      · rw [hu, List.concat_eq_append, ← List.append_assoc] at hsplit
        have hEw := List.append_inj_left' hsplit rfl
        rw [List.append_assoc, List.singleton_append] at hEw
        exact hpre w hEw
    · -- `E.` is a proper initial segment of `D.`
      push_neg at hle
      have hA : (E ++ ['.'] ++ (pad3 v ++ ascExt)).take (E.length + 1) = E ++ ['.'] :=
        List.take_left' (by simp)
      have hB : (D ++ ['.'] ++ t).take (E.length + 1) =
          (D ++ ['.']).take (E.length + 1) :=
        List.take_append_of_le_length (by simp; omega)
      have hT := congrArg (List.take (E.length + 1)) hEq
      simp only [hA, hB] at hT
      have hsplit : D ++ ['.'] = (E ++ ['.']) ++ (D ++ ['.']).drop (E.length + 1) := by
        conv_lhs => rw [← List.take_append_drop (E.length + 1) (D ++ ['.'])]
        rw [← hT]
      have hC : (E ++ ['.'] ++ (pad3 v ++ ascExt)).drop (E.length + 1) =
          pad3 v ++ ascExt :=
        List.drop_left' (by simp)
      have hD2 : (D ++ ['.'] ++ t).drop (E.length + 1) =
          (D ++ ['.']).drop (E.length + 1) ++ t :=
        List.drop_append_of_le_length (by simp; omega)
      have hPA := congrArg (List.drop (E.length + 1)) hEq
      simp only [hC, hD2] at hPA
      rcases List.eq_nil_or_concat ((D ++ ['.']).drop (E.length + 1)) with hu | ⟨w, c, hu⟩
      · have := congrArg List.length hu
        simp at this
        omega
      · rw [hu, List.concat_eq_append, ← List.append_assoc] at hsplit
        obtain ⟨hDw, hc⟩ := List.append_inj' hsplit rfl
        have hc' : c = '.' := by
          simpa using hc.symm
        subst hc'
        rw [hu, List.concat_eq_append, List.append_assoc, List.singleton_append] at hPA
        -- hPA : pad3 v ++ ascExt = w ++ ('.' :: t)
        have hlen := congrArg List.length hPA
        simp only [List.length_append, List.length_cons, ascExt, List.length_nil] at hlen
        rcases Nat.lt_trichotomy w.length (pad3 v).length with hw | hw | hw
        · -- the dot would land inside the all-digit version field
          have hidx := congrArg (fun l : Name => l[w.length]?) hPA
          simp only at hidx
          rw [List.getElem?_append_left hw,
            List.getElem?_append_right (Nat.le_refl w.length), Nat.sub_self,
            List.getElem?_cons_zero] at hidx
          have hdot : ('.' : Char) ∈ pad3 v := List.getElem?_mem hidx
          have := pad3_digits v '.' hdot
          exact absurd this (by decide)
        · -- `D = E.<pad3 v>`: the remainder after `D.` is only `asc`,
          -- too short to end with `.asc`
          obtain ⟨hpw, hrest⟩ := List.append_inj hPA hw.symm
          have ht3 : t = ['a', 's', 'c'] := by
            have h5 : ('.' :: t : Name) = ascExt := hrest.symm
            simpa [ascExt] using h5
          rw [ht, List.drop_left' (by simp), ht3] at h2
          exact absurd h2 (by decide)
        · -- the dot would land inside the `.asc` extension's tail
          have hiub : w.length < (pad3 v).length + 4 := by omega
          have hidx := congrArg (fun l : Name => l[w.length]?) hPA
          simp only at hidx
          rw [List.getElem?_append_right (by omega),
            List.getElem?_append_right (Nat.le_refl w.length), Nat.sub_self,
            List.getElem?_cons_zero] at hidx
          have hd1 : 1 ≤ w.length - (pad3 v).length := by omega
          have hd3 : w.length - (pad3 v).length ≤ 3 := by omega
          set d := w.length - (pad3 v).length with hd
          interval_cases d <;> exact absurd hidx (by decide)

/-- Appending an artifact of an unrelated document `E` to the directory
listing never changes `D`'s computed version. -/
theorem nextVersion_append_other (D E : Name) (v : Nat) (files : List Name)
    (hne : E ≠ D) (hpre : ∀ s, E ≠ D ++ '.' :: s) :
    nextVersion? D (files ++ [artifactName E v]) = nextVersion? D files :=
  nextVersion_append_no_match D files _ (globMatch_artifact_other D E v hne hpre)

/-! ## Evaluation lemmas for the workflow, one per stopping point -/

theorem signRun_unsupported (env : Env)
    (hs : pySuffix env.fileName ∉ supportedSuffixes) :
    signRun env = ([.printInfo .signingFile], .notImplementedError) := by
  simp [signRun, hs]

theorem signRun_valueError (env : Env)
    (hs : pySuffix env.fileName ∈ supportedSuffixes)
    (hv : nextVersion? env.fileName env.dirFiles = none) :
    signRun env =
      ([.printInfo .signingFile, .printInfo .textFileDetected], .valueError) := by
  simp [signRun, hs, hv]

theorem signRun_signFail (env : Env) (v : Int)
    (hs : pySuffix env.fileName ∈ supportedSuffixes)
    (hv : nextVersion? env.fileName env.dirFiles = some v)
    (h1 : env.signExit ≠ 0) :
    signRun env =
      ([.printInfo .signingFile, .printInfo .textFileDetected,
        .runSign (artifactName env.fileName v.toNat)],
       .calledProcessError .signStep) := by
  simp [signRun, hs, hv, h1]

theorem signRun_verifyFail (env : Env) (v : Int)
    (hs : pySuffix env.fileName ∈ supportedSuffixes)
    (hv : nextVersion? env.fileName env.dirFiles = some v)
    (h1 : env.signExit = 0) (h2 : env.verify.exitCode ≠ 0) :
    signRun env =
      ([.printInfo .signingFile, .printInfo .textFileDetected,
        .runSign (artifactName env.fileName v.toNat),
        .printInfo .createdSignedFile, .runVerify (artifactName env.fileName v.toNat)],
       .calledProcessError .verifyStep) := by
  simp [signRun, hs, hv, h1, h2]

theorem signRun_verifyNoSig (env : Env) (v : Int)
    (hs : pySuffix env.fileName ∈ supportedSuffixes)
    (hv : nextVersion? env.fileName env.dirFiles = some v)
    (h1 : env.signExit = 0) (h2 : env.verify.exitCode = 0)
    (h3 : containsSub goodSig env.verify.stderr = false) :
    signRun env =
      ([.printInfo .signingFile, .printInfo .textFileDetected,
        .runSign (artifactName env.fileName v.toNat),
        .printInfo .createdSignedFile, .runVerify (artifactName env.fileName v.toNat),
        .printRed env.verify.stderr],
       .ok) := by
  simp [signRun, hs, hv, h1, h2, h3]

theorem signRun_queryFail (env : Env) (v : Int)
    (hs : pySuffix env.fileName ∈ supportedSuffixes)
    (hv : nextVersion? env.fileName env.dirFiles = some v)
    (h1 : env.signExit = 0) (h2 : env.verify.exitCode = 0)
    (h3 : containsSub goodSig env.verify.stderr = true)
    (h4 : env.queryExit ≠ 0) :
    signRun env =
      ([.printInfo .signingFile, .printInfo .textFileDetected,
        .runSign (artifactName env.fileName v.toNat),
        .printInfo .createdSignedFile, .runVerify (artifactName env.fileName v.toNat),
        .printGreen env.verify.stderr, .printInfo .blankLine,
        .runQuery (artifactName env.fileName v.toNat ++ tsqExt)],
       .calledProcessError .queryStep) := by
  simp [signRun, hs, hv, h1, h2, h3, h4]

theorem signRun_curlFail (env : Env) (v : Int)
    (hs : pySuffix env.fileName ∈ supportedSuffixes)
    (hv : nextVersion? env.fileName env.dirFiles = some v)
    (h1 : env.signExit = 0) (h2 : env.verify.exitCode = 0)
    (h3 : containsSub goodSig env.verify.stderr = true)
    (h4 : env.queryExit = 0) (h5 : env.curlExit ≠ 0) :
    signRun env =
      ([.printInfo .signingFile, .printInfo .textFileDetected,
        .runSign (artifactName env.fileName v.toNat),
        .printInfo .createdSignedFile, .runVerify (artifactName env.fileName v.toNat),
        .printGreen env.verify.stderr, .printInfo .blankLine,
        .runQuery (artifactName env.fileName v.toNat ++ tsqExt),
        .printInfo .createdQueryFile,
        .openWrite (artifactName env.fileName v.toNat ++ tsrExt),
        .runCurl (artifactName env.fileName v.toNat ++ tsrExt)],
       .calledProcessError .curlStep) := by
  simp [signRun, hs, hv, h1, h2, h3, h4, h5]

theorem signRun_success (env : Env) (v : Int)
    (hs : pySuffix env.fileName ∈ supportedSuffixes)
    (hv : nextVersion? env.fileName env.dirFiles = some v)
    (h1 : env.signExit = 0) (h2 : env.verify.exitCode = 0)
    (h3 : containsSub goodSig env.verify.stderr = true)
    (h4 : env.queryExit = 0) (h5 : env.curlExit = 0)
    (h6 : env.tsVerify.exitCode = 0) :
    signRun env =
      ([.printInfo .signingFile, .printInfo .textFileDetected,
        .runSign (artifactName env.fileName v.toNat),
        .printInfo .createdSignedFile, .runVerify (artifactName env.fileName v.toNat),
        .printGreen env.verify.stderr, .printInfo .blankLine,
        .runQuery (artifactName env.fileName v.toNat ++ tsqExt),
        .printInfo .createdQueryFile,
        .openWrite (artifactName env.fileName v.toNat ++ tsrExt),
        .runCurl (artifactName env.fileName v.toNat ++ tsrExt),
        .printInfo .receivedResponse,
        .runTsVerify (artifactName env.fileName v.toNat ++ tsrExt)
          (artifactName env.fileName v.toNat ++ tsqExt),
        .printGreen (opensslTsTag ++ env.tsVerify.stdout)],
       .ok) := by
  simp [signRun, hs, hv, h1, h2, h3, h4, h5, h6, existsIn, wroteFile]

theorem signRun_tsVerifyFail (env : Env) (v : Int)
    (hs : pySuffix env.fileName ∈ supportedSuffixes)
    (hv : nextVersion? env.fileName env.dirFiles = some v)
    (h1 : env.signExit = 0) (h2 : env.verify.exitCode = 0)
    (h3 : containsSub goodSig env.verify.stderr = true)
    (h4 : env.queryExit = 0) (h5 : env.curlExit = 0)
    (h6 : env.tsVerify.exitCode ≠ 0) :
    signRun env =
      ([.printInfo .signingFile, .printInfo .textFileDetected,
        .runSign (artifactName env.fileName v.toNat),
        .printInfo .createdSignedFile, .runVerify (artifactName env.fileName v.toNat),
        .printGreen env.verify.stderr, .printInfo .blankLine,
        .runQuery (artifactName env.fileName v.toNat ++ tsqExt),
        .printInfo .createdQueryFile,
        .openWrite (artifactName env.fileName v.toNat ++ tsrExt),
        .runCurl (artifactName env.fileName v.toNat ++ tsrExt),
        .printInfo .receivedResponse,
        .runTsVerify (artifactName env.fileName v.toNat ++ tsrExt)
          (artifactName env.fileName v.toNat ++ tsqExt),
        .printRed env.tsVerify.stdout, .printRed env.tsVerify.stderr],
       .ok) := by
  simp [signRun, hs, hv, h1, h2, h3, h4, h5, h6, existsIn, wroteFile]

/-! ## Helper facts across all branches of the workflow -/

theorem nextVersion_append (D : Name) (files : List Name) (x : Name) :
    nextVersion? D (files ++ [x]) = scanStep D (nextVersion? D files) x := by
  rw [nextVersion?, nextVersion?, List.foldl_append, List.foldl_cons, List.foldl_nil]

/-- Once the version scan succeeds on a supported file, the signer is
invoked with the computed artifact path, whatever happens afterwards. -/
theorem runSign_mem (env : Env) (v : Int)
    (hs : pySuffix env.fileName ∈ supportedSuffixes)
    (hv : nextVersion? env.fileName env.dirFiles = some v) :
    Event.runSign (artifactName env.fileName v.toNat) ∈ (signRun env).1 := by
  by_cases h1 : env.signExit = 0
  · by_cases h2 : env.verify.exitCode = 0
    · rcases h3 : containsSub goodSig env.verify.stderr with _ | _
      · rw [signRun_verifyNoSig env v hs hv h1 h2 h3]; simp
      · by_cases h4 : env.queryExit = 0
        · by_cases h5 : env.curlExit = 0
          · by_cases h6 : env.tsVerify.exitCode = 0
            · rw [signRun_success env v hs hv h1 h2 h3 h4 h5 h6]; simp
            · rw [signRun_tsVerifyFail env v hs hv h1 h2 h3 h4 h5 h6]; simp
          · rw [signRun_curlFail env v hs hv h1 h2 h3 h4 h5]; simp
        · rw [signRun_queryFail env v hs hv h1 h2 h3 h4]; simp
    · rw [signRun_verifyFail env v hs hv h1 h2]; simp
  · rw [signRun_signFail env v hs hv h1]; simp

/-- After a zero-exit self-verification whose diagnostic contains the
marker, that diagnostic is printed in success style, whatever happens in
the timestamp steps. -/
theorem printGreen_mem (env : Env) (v : Int)
    (hs : pySuffix env.fileName ∈ supportedSuffixes)
    (hv : nextVersion? env.fileName env.dirFiles = some v)
    (h1 : env.signExit = 0) (h2 : env.verify.exitCode = 0)
    (h3 : containsSub goodSig env.verify.stderr = true) :
    Event.printGreen env.verify.stderr ∈ (signRun env).1 := by
  by_cases h4 : env.queryExit = 0
  · by_cases h5 : env.curlExit = 0
    · by_cases h6 : env.tsVerify.exitCode = 0
      · rw [signRun_success env v hs hv h1 h2 h3 h4 h5 h6]; simp
      · rw [signRun_tsVerifyFail env v hs hv h1 h2 h3 h4 h5 h6]; simp
    · rw [signRun_curlFail env v hs hv h1 h2 h3 h4 h5]; simp
  · rw [signRun_queryFail env v hs hv h1 h2 h3 h4]; simp

/-- The command `sign` never deletes a file: no trace contains a `removeFile` event. -/
theorem signRun_no_remove (env : Env) (p : Name) :
    Event.removeFile p ∉ (signRun env).1 := by
  by_cases hs : pySuffix env.fileName ∈ supportedSuffixes
  · rcases hv : nextVersion? env.fileName env.dirFiles with _ | v
    · rw [signRun_valueError env hs hv]; simp
    · by_cases h1 : env.signExit = 0
      · by_cases h2 : env.verify.exitCode = 0
        · rcases h3 : containsSub goodSig env.verify.stderr with _ | _
          · rw [signRun_verifyNoSig env v hs hv h1 h2 h3]; simp
          · by_cases h4 : env.queryExit = 0
            · by_cases h5 : env.curlExit = 0
              · by_cases h6 : env.tsVerify.exitCode = 0
                · rw [signRun_success env v hs hv h1 h2 h3 h4 h5 h6]; simp
                · rw [signRun_tsVerifyFail env v hs hv h1 h2 h3 h4 h5 h6]; simp
              · rw [signRun_curlFail env v hs hv h1 h2 h3 h4 h5]; simp
            · rw [signRun_queryFail env v hs hv h1 h2 h3 h4]; simp
        · rw [signRun_verifyFail env v hs hv h1 h2]; simp
      · rw [signRun_signFail env v hs hv h1]; simp
  · rw [signRun_unsupported env hs]; simp

/-- The `assert tsr_file.exists()` can never fail: the response file is
opened for writing before `curl` runs, so it exists when the assert runs. -/
theorem signRun_no_assert (env : Env) :
    (signRun env).2 ≠ Outcome.assertionError := by
  by_cases hs : pySuffix env.fileName ∈ supportedSuffixes
  · rcases hv : nextVersion? env.fileName env.dirFiles with _ | v
    · rw [signRun_valueError env hs hv]; simp
    · by_cases h1 : env.signExit = 0
      · by_cases h2 : env.verify.exitCode = 0
        · rcases h3 : containsSub goodSig env.verify.stderr with _ | _
          · rw [signRun_verifyNoSig env v hs hv h1 h2 h3]; simp
          · by_cases h4 : env.queryExit = 0
            · by_cases h5 : env.curlExit = 0
              · by_cases h6 : env.tsVerify.exitCode = 0
                · rw [signRun_success env v hs hv h1 h2 h3 h4 h5 h6]; simp
                · rw [signRun_tsVerifyFail env v hs hv h1 h2 h3 h4 h5 h6]; simp
              · rw [signRun_curlFail env v hs hv h1 h2 h3 h4 h5]; simp
            · rw [signRun_queryFail env v hs hv h1 h2 h3 h4]; simp
        · rw [signRun_verifyFail env v hs hv h1 h2]; simp
      · rw [signRun_signFail env v hs hv h1]; simp
  · rw [signRun_unsupported env hs]; simp

/-! ## Claim theorems -/

/-- C1 (counterexample): with the artifacts `a.md.000.asc` through
`a.md.1000.asc` present (`k = 1000`), the computed next version is 1000 —
not `k + 1 = 1001` — because the fixed slice reads only the last three
digits of the four-digit version `1000`. -/
theorem claim_C1_counterexample :
    nextVersion? ("a.md".toList) (versionSet ("a.md".toList) 1000) = some 1000 ∧
    (some 1000 : Option Int) ≠ some (1000 + 1) := by
  constructor
  · have hsplit : versionSet ("a.md".toList) 1000 =
        versionSet ("a.md".toList) 999 ++ [artifactName ("a.md".toList) 1000] := by
      rw [versionSet, versionSet, List.range_succ, List.map_append, List.map_singleton]
    rw [hsplit, nextVersion_append, nextVersion_versionSet _ 999 (by omega)]
    have hc : ((999 : Nat) : Int) + 1 = 1000 := by norm_num
    rw [hc]
    decide
  · decide

/-- C1 (amended): for every document name, every `k ≤ 999` and a directory
holding exactly the artifacts `D.000.asc … D.k.asc` (in any order), the
computed next version is `k + 1` and the signer is invoked on
`<signature-dir>/<document-name>.<k+1, zero-padded>.asc`; with no matching
artifact, the version is 0 and the signer is invoked on
`<document-name>.000.asc`.  (For `k ≥ 1000` the slice misreads four-digit
versions, so the invariant stops at 999.) -/
theorem claim_C1_version_increment (env : Env) (k : Nat) (hk : k ≤ 999)
    (hs : pySuffix env.fileName ∈ supportedSuffixes) :
    (env.dirFiles.Perm (versionSet env.fileName k) →
      nextVersion? env.fileName env.dirFiles = some ((k : Int) + 1) ∧
      Event.runSign (artifactName env.fileName (k + 1)) ∈ (signRun env).1) ∧
    ((∀ f ∈ env.dirFiles, globMatch env.fileName f = false) →
      nextVersion? env.fileName env.dirFiles = some 0 ∧
      Event.runSign (artifactName env.fileName 0) ∈ (signRun env).1) := by
  constructor
  · intro hperm
    have hnv : nextVersion? env.fileName env.dirFiles = some ((k : Int) + 1) := by
      rw [nextVersion_perm env.fileName env.dirFiles _ hperm]
      exact nextVersion_versionSet env.fileName k hk
    refine ⟨hnv, ?_⟩
    have hmem := runSign_mem env ((k : Int) + 1) hs hnv
    have htn : ((k : Int) + 1).toNat = k + 1 := by omega
    rwa [htn] at hmem
  · intro hnone
    have hnv : nextVersion? env.fileName env.dirFiles = some 0 :=
      nextVersion_no_match env.fileName env.dirFiles hnone
    refine ⟨hnv, ?_⟩
    have hmem := runSign_mem env 0 hs hnv
    simpa using hmem

/-- C1 (witness): `notes.md` with versions 0–2 present gives next version 3
and a signer invocation on `notes.md.003.asc`. -/
theorem claim_C1_witness :
    nextVersion? ("notes.md".toList) (versionSet ("notes.md".toList) 2) = some 3 ∧
    Event.runSign (artifactName ("notes.md".toList) 3) ∈ (signRun (envVersions 2)).1 := by
  have h := (claim_C1_version_increment (envVersions 2) 2 (by omega) (by decide)).1
    (List.Perm.refl _)
  exact ⟨h.1, h.2⟩

/-- C2 (counterexample): the document name `a.md` is a strict prefix of the
document name `a.md.x`, and `a.md.x`'s artifact `a.md.x.001.asc` does
influence `a.md`'s next version (2 instead of 0). -/
theorem claim_C2_counterexample :
    ("a.md.x".toList : Name) ≠ "a.md".toList ∧
    nextVersion? ("a.md".toList) [artifactName ("a.md.x".toList) 1] = some 2 ∧
    nextVersion? ("a.md".toList) [] = some 0 := by decide

/-- C2 (amended): artifacts of a distinct document `E` never influence `D`'s
computed version, provided `E` is not of the form `D.<something>`; when `E`
extends `D` past a dot, `E`'s artifacts match `D`'s glob pattern and do
influence the scan (see the counterexample). -/
theorem claim_C2_other_documents (D E : Name) (v : Nat) (files : List Name)
    (hne : E ≠ D) (hpre : ∀ s, E ≠ D ++ '.' :: s) :
    nextVersion? D (files ++ [artifactName E v]) = nextVersion? D files :=
  nextVersion_append_other D E v files hne hpre

/-- C2 (witness): a `b.md` artifact does not change `a.md`'s scan. -/
theorem claim_C2_witness :
    nextVersion? ("a.md".toList)
        ([artifactName ("a.md".toList) 0] ++ [artifactName ("b.md".toList) 5]) =
      nextVersion? ("a.md".toList) [artifactName ("a.md".toList) 0] :=
  claim_C2_other_documents ("a.md".toList) ("b.md".toList) 5 _ (by decide)
    (fun s h => by
      have hl := congrArg List.length h
      simp at hl)

/-- C3 (counterexample): a run in which curl writes an empty response body
(`curlBody = []`) completes with outcome `ok` and still reaches the final
timestamp-verification step — the workflow does not treat the empty
response file as a fatal internal-consistency failure. -/
theorem claim_C3_counterexample :
    envBase.curlBody = [] ∧
    (signRun envBase).2 = Outcome.ok ∧
    Event.runTsVerify ("notes.md.000.asc.apple.tsr".toList)
      ("notes.md.000.asc.apple.tsq".toList) ∈ (signRun envBase).1 := by decide

/-- C3 (amended): after a submission step whose transport succeeds, only
absence of the response file would be fatal (the `assert`), and absence
cannot occur because the file is opened for writing before curl runs; in
particular with an empty response body the workflow completes normally and
continues to the final timestamp-verification step. -/
theorem claim_C3_empty_response_not_fatal (env : Env) (v : Int)
    (hs : pySuffix env.fileName ∈ supportedSuffixes)
    (hv : nextVersion? env.fileName env.dirFiles = some v)
    (h1 : env.signExit = 0) (h2 : env.verify.exitCode = 0)
    (h3 : containsSub goodSig env.verify.stderr = true)
    (h4 : env.queryExit = 0) (h5 : env.curlExit = 0)
    (_hempty : env.curlBody = []) :
    (signRun env).2 = Outcome.ok ∧
    (signRun env).2 ≠ Outcome.assertionError ∧
    Event.runTsVerify (artifactName env.fileName v.toNat ++ tsrExt)
      (artifactName env.fileName v.toNat ++ tsqExt) ∈ (signRun env).1 := by
  by_cases h6 : env.tsVerify.exitCode = 0
  · rw [signRun_success env v hs hv h1 h2 h3 h4 h5 h6]
    exact ⟨rfl, by simp, by simp⟩
  · rw [signRun_tsVerifyFail env v hs hv h1 h2 h3 h4 h5 h6]
    exact ⟨rfl, by simp, by simp⟩

/-- C3 (witness): the amended claim at the baseline run (whose `curlBody`
is empty). -/
theorem claim_C3_witness :
    (signRun envBase).2 = Outcome.ok ∧
    (signRun envBase).2 ≠ Outcome.assertionError ∧
    Event.runTsVerify (artifactName envBase.fileName ((0 : Int)).toNat ++ tsrExt)
      (artifactName envBase.fileName ((0 : Int)).toNat ++ tsqExt) ∈ (signRun envBase).1 :=
  claim_C3_empty_response_not_fatal envBase 0 (by decide) (by decide) rfl rfl
    (by decide) rfl rfl rfl

/-- C4 (counterexample): `x.md` has a supported extension, yet with the
malformed artifact `x.md.backup.asc` in the directory the workflow aborts
with a `ValueError` before the signer-invocation step. -/
theorem claim_C4_counterexample :
    pySuffix envBadArtifact.fileName ∈ supportedSuffixes ∧
    signRun envBadArtifact =
      ([Event.printInfo InfoTag.signingFile, Event.printInfo InfoTag.textFileDetected],
       Outcome.valueError) := by decide

/-- C4 (amended): an unsupported extension fails immediately with
`NotImplementedError`, zero artifacts and no external invocation (the trace
holds a single informational print); a supported extension reaches the
signer invocation provided the version scan does not raise. -/
theorem claim_C4_extension_dispatch (env : Env) :
    (pySuffix env.fileName ∉ supportedSuffixes →
      signRun env = ([Event.printInfo InfoTag.signingFile], Outcome.notImplementedError)) ∧
    (pySuffix env.fileName ∈ supportedSuffixes →
      ∀ v : Int, nextVersion? env.fileName env.dirFiles = some v →
        Event.runSign (artifactName env.fileName v.toNat) ∈ (signRun env).1) :=
  ⟨fun hs => signRun_unsupported env hs,
   fun hs v hv => runSign_mem env v hs hv⟩

/-- C4 (witness): `notes.pdf` fails immediately with no invocation events;
`notes.md` in an empty directory reaches the signer invocation. -/
theorem claim_C4_witness :
    signRun envPdf = ([Event.printInfo InfoTag.signingFile], Outcome.notImplementedError) ∧
    Event.runSign (artifactName envBase.fileName ((0 : Int)).toNat) ∈ (signRun envBase).1 :=
  ⟨(claim_C4_extension_dispatch envPdf).1 (by decide),
   (claim_C4_extension_dispatch envBase).2 (by decide) 0 (by decide)⟩

/-- C5 (counterexample): the verifier exits non-zero while its diagnostic
does contain "Good signature"; self-verification nevertheless fails (a
`CalledProcessError`), and the diagnostic is printed in no style at all —
so success is not detected exactly by the marker substring. -/
theorem claim_C5_counterexample :
    containsSub goodSig envVerifyExit1.verify.stderr = true ∧
    signRun envVerifyExit1 =
      ([Event.printInfo InfoTag.signingFile, Event.printInfo InfoTag.textFileDetected,
        Event.runSign ("notes.md.000.asc".toList),
        Event.printInfo InfoTag.createdSignedFile,
        Event.runVerify ("notes.md.000.asc".toList)],
       Outcome.calledProcessError StepTag.verifyStep) := by decide

/-- C5 (amended): when the verifier exits zero, self-verification succeeds
exactly on the marker substring: present means the diagnostic is printed in
success style and the run continues, absent means it is printed in error
style and the workflow stops with outcome ok; when the verifier exits
non-zero the workflow aborts with a process error and prints nothing.
In every non-success case neither the query artifact nor the response
artifact is ever touched. -/
theorem claim_C5_self_verify (env : Env) (v : Int)
    (hs : pySuffix env.fileName ∈ supportedSuffixes)
    (hv : nextVersion? env.fileName env.dirFiles = some v)
    (h1 : env.signExit = 0) :
    (env.verify.exitCode = 0 → containsSub goodSig env.verify.stderr = true →
      Event.printGreen env.verify.stderr ∈ (signRun env).1) ∧
    (env.verify.exitCode = 0 → containsSub goodSig env.verify.stderr = false →
      signRun env =
        ([Event.printInfo InfoTag.signingFile, Event.printInfo InfoTag.textFileDetected,
          Event.runSign (artifactName env.fileName v.toNat),
          Event.printInfo InfoTag.createdSignedFile,
          Event.runVerify (artifactName env.fileName v.toNat),
          Event.printRed env.verify.stderr], Outcome.ok)) ∧
    (env.verify.exitCode ≠ 0 →
      signRun env =
        ([Event.printInfo InfoTag.signingFile, Event.printInfo InfoTag.textFileDetected,
          Event.runSign (artifactName env.fileName v.toNat),
          Event.printInfo InfoTag.createdSignedFile,
          Event.runVerify (artifactName env.fileName v.toNat)],
         Outcome.calledProcessError StepTag.verifyStep)) ∧
    ((containsSub goodSig env.verify.stderr = false ∨ env.verify.exitCode ≠ 0) →
      (∀ p, Event.runQuery p ∉ (signRun env).1) ∧
      (∀ p, Event.openWrite p ∉ (signRun env).1) ∧
      (∀ p, Event.runCurl p ∉ (signRun env).1)) := by
  refine ⟨fun h2 h3 => printGreen_mem env v hs hv h1 h2 h3,
          fun h2 h3 => signRun_verifyNoSig env v hs hv h1 h2 h3,
          fun h2 => signRun_verifyFail env v hs hv h1 h2, ?_⟩
  rintro (h3 | h2)
  · by_cases h2 : env.verify.exitCode = 0
    · rw [signRun_verifyNoSig env v hs hv h1 h2 h3]
      exact ⟨fun p => by simp, fun p => by simp, fun p => by simp⟩
    · rw [signRun_verifyFail env v hs hv h1 h2]
      exact ⟨fun p => by simp, fun p => by simp, fun p => by simp⟩
  · rw [signRun_verifyFail env v hs hv h1 h2]
    exact ⟨fun p => by simp, fun p => by simp, fun p => by simp⟩

/-- C5 (witness): at the baseline run, the verify diagnostic is printed in
success style. -/
theorem claim_C5_witness :
    Event.printGreen envBase.verify.stderr ∈ (signRun envBase).1 :=
  (claim_C5_self_verify envBase 0 (by decide) (by decide) rfl).1 rfl (by decide)

/-- C6: the final timestamp-verification step never aborts the workflow:
zero exit is reported by printing the verifier's standard output in success
style, non-zero exit by printing standard output and standard error in
error style, and the outcome is a normal return (process exit code 0) in
both cases. -/
theorem claim_C6_final_verify_nonfatal (env : Env) (v : Int)
    (hs : pySuffix env.fileName ∈ supportedSuffixes)
    (hv : nextVersion? env.fileName env.dirFiles = some v)
    (h1 : env.signExit = 0) (h2 : env.verify.exitCode = 0)
    (h3 : containsSub goodSig env.verify.stderr = true)
    (h4 : env.queryExit = 0) (h5 : env.curlExit = 0) :
    (signRun env).2 = Outcome.ok ∧
    (env.tsVerify.exitCode = 0 → ∃ pre,
      (signRun env).1 = pre ++ [Event.printGreen (opensslTsTag ++ env.tsVerify.stdout)]) ∧
    (env.tsVerify.exitCode ≠ 0 → ∃ pre,
      (signRun env).1 = pre ++
        [Event.printRed env.tsVerify.stdout, Event.printRed env.tsVerify.stderr]) := by
  by_cases h6 : env.tsVerify.exitCode = 0
  · rw [signRun_success env v hs hv h1 h2 h3 h4 h5 h6]
    refine ⟨rfl, fun _ => ?_, fun hne => absurd h6 hne⟩
    exact ⟨[Event.printInfo InfoTag.signingFile, Event.printInfo InfoTag.textFileDetected,
      Event.runSign (artifactName env.fileName v.toNat),
      Event.printInfo InfoTag.createdSignedFile,
      Event.runVerify (artifactName env.fileName v.toNat),
      Event.printGreen env.verify.stderr, Event.printInfo InfoTag.blankLine,
      Event.runQuery (artifactName env.fileName v.toNat ++ tsqExt),
      Event.printInfo InfoTag.createdQueryFile,
      Event.openWrite (artifactName env.fileName v.toNat ++ tsrExt),
      Event.runCurl (artifactName env.fileName v.toNat ++ tsrExt),
      Event.printInfo InfoTag.receivedResponse,
      Event.runTsVerify (artifactName env.fileName v.toNat ++ tsrExt)
        (artifactName env.fileName v.toNat ++ tsqExt)], rfl⟩
  · rw [signRun_tsVerifyFail env v hs hv h1 h2 h3 h4 h5 h6]
    refine ⟨rfl, fun he => absurd he h6, fun _ => ?_⟩
    exact ⟨[Event.printInfo InfoTag.signingFile, Event.printInfo InfoTag.textFileDetected,
      Event.runSign (artifactName env.fileName v.toNat),
      Event.printInfo InfoTag.createdSignedFile,
      Event.runVerify (artifactName env.fileName v.toNat),
      Event.printGreen env.verify.stderr, Event.printInfo InfoTag.blankLine,
      Event.runQuery (artifactName env.fileName v.toNat ++ tsqExt),
      Event.printInfo InfoTag.createdQueryFile,
      Event.openWrite (artifactName env.fileName v.toNat ++ tsrExt),
      Event.runCurl (artifactName env.fileName v.toNat ++ tsrExt),
      Event.printInfo InfoTag.receivedResponse,
      Event.runTsVerify (artifactName env.fileName v.toNat ++ tsrExt)
        (artifactName env.fileName v.toNat ++ tsqExt)], rfl⟩

/-- C6 (witness): with the final verifier exiting 1, the run still ends
with outcome ok, after printing its output and error in error style. -/
theorem claim_C6_witness :
    (signRun envTsvFail).2 = Outcome.ok ∧
    ∃ pre, (signRun envTsvFail).1 = pre ++
      [Event.printRed envTsvFail.tsVerify.stdout,
       Event.printRed envTsvFail.tsVerify.stderr] := by
  have h := claim_C6_final_verify_nonfatal envTsvFail 0 (by decide) (by decide)
    rfl rfl (by decide) rfl rfl
  exact ⟨h.1, h.2.2 (by decide)⟩

theorem natCharsAux_length_lb : ∀ fuel n d : Nat, n < fuel → 10 ^ d ≤ n →
    d + 1 ≤ (natCharsAux fuel n).length
  | 0, n, _, h, _ => absurd h (by omega)
  | fuel + 1, n, d, h, hd => by
    unfold natCharsAux
    split
    · next h10 =>
      rcases d with _ | d
      · simp
      · exfalso
        have hp : (10 : Nat) ≤ 10 ^ (d + 1) := by
          calc (10 : Nat) = 10 ^ 1 := by norm_num
          _ ≤ 10 ^ (d + 1) := Nat.pow_le_pow_right (by omega) (by omega)
        omega
    · next h10 =>
      rw [List.length_append, List.length_singleton]
      rcases d with _ | d
      · omega
      · have hdiv : n / 10 < fuel := by
          have : n / 10 < n := Nat.div_lt_self (by omega) (by omega)
          omega
        have hge : 10 ^ d ≤ n / 10 := by
          rw [Nat.le_div_iff_mul_le (by norm_num : 0 < 10)]
          calc 10 ^ d * 10 = 10 ^ (d + 1) := by rw [← pow_succ]
          _ ≤ n := hd
        have := natCharsAux_length_lb fuel (n / 10) d hdiv hge
        omega

/-- C7 (counterexample): version 1000 is reachable (from the canonical
directory `a.md.000.asc … a.md.999.asc` the computed next version is 1000),
and its artifact is `a.md.1000.asc`, whose version segment has 4 digits,
not 3. -/
theorem claim_C7_counterexample :
    nextVersion? ("a.md".toList) (versionSet ("a.md".toList) 999) = some 1000 ∧
    artifactName ("a.md".toList) 1000 = "a.md.1000.asc".toList ∧
    (pad3 1000).length ≠ 3 := by
  refine ⟨?_, by decide, by decide⟩
  rw [nextVersion_versionSet ("a.md".toList) 999 (by omega)]
  norm_num

/-- C7 (amended): the version segment of the artifact name is the decimal
version zero-padded to a minimum of 3 characters: it is always at least 3
characters, exactly 3 for versions up to 999, and at least 4 for versions
of 1000 or more. -/
theorem claim_C7_version_padding (v : Nat) :
    3 ≤ (pad3 v).length ∧
    (v ≤ 999 → (pad3 v).length = 3) ∧
    (1000 ≤ v → 4 ≤ (pad3 v).length) := by
  refine ⟨pad3_length_ge v, fun h => pad3_length_eq v h, fun h => ?_⟩
  have h1000 : (10 : Nat) ^ 3 ≤ v := by
    have he : (10 : Nat) ^ 3 = 1000 := by norm_num
    omega
  have hlb : 3 + 1 ≤ (natChars v).length :=
    natCharsAux_length_lb (v + 1) v 3 (Nat.lt_succ_self v) h1000
  rw [pad3, List.length_append, List.length_replicate]
  omega

/-- C7 (witness): version 7 renders as exactly three characters, version
1000 as at least four. -/
theorem claim_C7_witness :
    (pad3 7).length = 3 ∧ 4 ≤ (pad3 1000).length :=
  ⟨(claim_C7_version_padding 7).2.1 (by omega),
   (claim_C7_version_padding 1000).2.2 (by omega)⟩

/-- C8: a non-zero exit of the signer, the query generator, or curl halts
the workflow with a `CalledProcessError` from that step, with no later
artifact-producing event in the trace; and no trace ever contains a file
deletion. -/
theorem claim_C8_failfast (env : Env) (v : Int)
    (hs : pySuffix env.fileName ∈ supportedSuffixes)
    (hv : nextVersion? env.fileName env.dirFiles = some v) :
    (env.signExit ≠ 0 →
      (signRun env).2 = Outcome.calledProcessError StepTag.signStep ∧
      (∀ p, Event.runQuery p ∉ (signRun env).1) ∧
      (∀ p, Event.openWrite p ∉ (signRun env).1) ∧
      (∀ p, Event.runCurl p ∉ (signRun env).1)) ∧
    (env.signExit = 0 → env.verify.exitCode = 0 →
     containsSub goodSig env.verify.stderr = true → env.queryExit ≠ 0 →
      (signRun env).2 = Outcome.calledProcessError StepTag.queryStep ∧
      (∀ p, Event.openWrite p ∉ (signRun env).1) ∧
      (∀ p, Event.runCurl p ∉ (signRun env).1)) ∧
    (env.signExit = 0 → env.verify.exitCode = 0 →
     containsSub goodSig env.verify.stderr = true → env.queryExit = 0 →
     env.curlExit ≠ 0 →
      (signRun env).2 = Outcome.calledProcessError StepTag.curlStep ∧
      (∀ a b, Event.runTsVerify a b ∉ (signRun env).1)) ∧
    (∀ p, Event.removeFile p ∉ (signRun env).1) := by
  refine ⟨fun h1 => ?_, fun h1 h2 h3 h4 => ?_, fun h1 h2 h3 h4 h5 => ?_,
    fun p => signRun_no_remove env p⟩
  · rw [signRun_signFail env v hs hv h1]
    exact ⟨rfl, fun p => by simp, fun p => by simp, fun p => by simp⟩
  · rw [signRun_queryFail env v hs hv h1 h2 h3 h4]
    exact ⟨rfl, fun p => by simp, fun p => by simp⟩
  · rw [signRun_curlFail env v hs hv h1 h2 h3 h4 h5]
    exact ⟨rfl, fun a b => by simp⟩

/-- C8 (witness): with the signer exiting 2, the run fails at the signing
step, never creates the query file, and removes nothing. -/
theorem claim_C8_witness :
    (signRun envSignFail).2 = Outcome.calledProcessError StepTag.signStep ∧
    Event.runQuery ("notes.md.000.asc.apple.tsq".toList) ∉ (signRun envSignFail).1 ∧
    Event.removeFile ("notes.md.000.asc".toList) ∉ (signRun envSignFail).1 := by
  have h := claim_C8_failfast envSignFail 0 (by decide) (by decide)
  exact ⟨(h.1 (by decide)).1, (h.1 (by decide)).2.1 _, h.2.2.2 _⟩

/-- C9 (counterexample): the matching artifact `x.md.+12.asc` has version
slice `+12`, which is not a string of decimal digits (`'+'` is no digit),
yet Python's `int` parses it to 12: no `ValueError` is raised, the workflow
does not abort, and the computed next version is 13. -/
theorem claim_C9_counterexample :
    slice74 ("x.md.+12.asc".toList) = "+12".toList ∧
    ('+' : Char).isDigit = false ∧
    pyInt? ("+12".toList) = some 12 ∧
    nextVersion? ("x.md".toList) envPlusArtifact.dirFiles = some 13 ∧
    (signRun envPlusArtifact).2 ≠ Outcome.valueError := by decide

/-- C9 (amended): if the signature directory holds a file matching
`<document-name>.*.asc` whose slice at positions −7 to −4 is rejected by
Python's `int` (which also accepts an optional sign, surrounding whitespace
and underscores between digits, so "not all digits" alone does not imply
rejection), the scan raises an uncaught `ValueError` and the workflow
aborts before any invocation or artifact event. -/
theorem claim_C9_malformed_artifact (env : Env) (f : Name)
    (hs : pySuffix env.fileName ∈ supportedSuffixes)
    (hf : f ∈ env.dirFiles) (hg : globMatch env.fileName f = true)
    (hp : pyInt? (slice74 f) = none) :
    signRun env = ([Event.printInfo InfoTag.signingFile,
      Event.printInfo InfoTag.textFileDetected], Outcome.valueError) :=
  signRun_valueError env hs
    (nextVersion_none_of_bad env.fileName env.dirFiles f hf hg hp)

/-- C9 (witness): `x.md.backup.asc` (slice `kup`) aborts the scan with a
`ValueError` before anything is signed. -/
theorem claim_C9_witness :
    signRun envBadArtifact = ([Event.printInfo InfoTag.signingFile,
      Event.printInfo InfoTag.textFileDetected], Outcome.valueError) :=
  claim_C9_malformed_artifact envBadArtifact ("x.md.backup.asc".toList)
    (by decide) (by decide) (by decide) (by decide)

/-- C10: the response file is opened for writing — and thereby created —
immediately before curl is invoked, the post-transfer existence assert can
never fail, and with a zero curl exit the workflow always proceeds to the
timestamp-verification step, whatever the transfer wrote (the response body
is never read). -/
theorem claim_C10_response_precreated (env : Env) (v : Int)
    (hs : pySuffix env.fileName ∈ supportedSuffixes)
    (hv : nextVersion? env.fileName env.dirFiles = some v)
    (h1 : env.signExit = 0) (h2 : env.verify.exitCode = 0)
    (h3 : containsSub goodSig env.verify.stderr = true)
    (h4 : env.queryExit = 0) :
    (∃ pre post, (signRun env).1 = pre ++
      Event.openWrite (artifactName env.fileName v.toNat ++ tsrExt) ::
      Event.runCurl (artifactName env.fileName v.toNat ++ tsrExt) :: post) ∧
    (signRun env).2 ≠ Outcome.assertionError ∧
    (env.curlExit = 0 →
      Event.runTsVerify (artifactName env.fileName v.toNat ++ tsrExt)
        (artifactName env.fileName v.toNat ++ tsqExt) ∈ (signRun env).1) := by
  refine ⟨?_, signRun_no_assert env, fun h5 => ?_⟩
  · by_cases h5 : env.curlExit = 0
    · by_cases h6 : env.tsVerify.exitCode = 0
      · rw [signRun_success env v hs hv h1 h2 h3 h4 h5 h6]
        exact ⟨[Event.printInfo InfoTag.signingFile, Event.printInfo InfoTag.textFileDetected,
          Event.runSign (artifactName env.fileName v.toNat),
          Event.printInfo InfoTag.createdSignedFile,
          Event.runVerify (artifactName env.fileName v.toNat),
          Event.printGreen env.verify.stderr, Event.printInfo InfoTag.blankLine,
          Event.runQuery (artifactName env.fileName v.toNat ++ tsqExt),
          Event.printInfo InfoTag.createdQueryFile],
          [Event.printInfo InfoTag.receivedResponse,
           Event.runTsVerify (artifactName env.fileName v.toNat ++ tsrExt)
             (artifactName env.fileName v.toNat ++ tsqExt),
           Event.printGreen (opensslTsTag ++ env.tsVerify.stdout)], rfl⟩
      · rw [signRun_tsVerifyFail env v hs hv h1 h2 h3 h4 h5 h6]
        exact ⟨[Event.printInfo InfoTag.signingFile, Event.printInfo InfoTag.textFileDetected,
          Event.runSign (artifactName env.fileName v.toNat),
          Event.printInfo InfoTag.createdSignedFile,
          Event.runVerify (artifactName env.fileName v.toNat),
          Event.printGreen env.verify.stderr, Event.printInfo InfoTag.blankLine,
          Event.runQuery (artifactName env.fileName v.toNat ++ tsqExt),
          Event.printInfo InfoTag.createdQueryFile],
          [Event.printInfo InfoTag.receivedResponse,
           Event.runTsVerify (artifactName env.fileName v.toNat ++ tsrExt)
             (artifactName env.fileName v.toNat ++ tsqExt),
           Event.printRed env.tsVerify.stdout, Event.printRed env.tsVerify.stderr], rfl⟩
    · rw [signRun_curlFail env v hs hv h1 h2 h3 h4 h5]
      exact ⟨[Event.printInfo InfoTag.signingFile, Event.printInfo InfoTag.textFileDetected,
        Event.runSign (artifactName env.fileName v.toNat),
        Event.printInfo InfoTag.createdSignedFile,
        Event.runVerify (artifactName env.fileName v.toNat),
        Event.printGreen env.verify.stderr, Event.printInfo InfoTag.blankLine,
        Event.runQuery (artifactName env.fileName v.toNat ++ tsqExt),
        Event.printInfo InfoTag.createdQueryFile], [], rfl⟩
  · by_cases h6 : env.tsVerify.exitCode = 0
    · rw [signRun_success env v hs hv h1 h2 h3 h4 h5 h6]; simp
    · rw [signRun_tsVerifyFail env v hs hv h1 h2 h3 h4 h5 h6]; simp

/-- C10 (witness): in the baseline run the response file is opened before
curl runs, the assert passes, and timestamp verification is reached. -/
theorem claim_C10_witness :
    (∃ pre post, (signRun envBase).1 = pre ++
      Event.openWrite (artifactName envBase.fileName ((0 : Int)).toNat ++ tsrExt) ::
      Event.runCurl (artifactName envBase.fileName ((0 : Int)).toNat ++ tsrExt) :: post) ∧
    (signRun envBase).2 ≠ Outcome.assertionError ∧
    Event.runTsVerify (artifactName envBase.fileName ((0 : Int)).toNat ++ tsrExt)
      (artifactName envBase.fileName ((0 : Int)).toNat ++ tsqExt) ∈ (signRun envBase).1 := by
  have h := claim_C10_response_precreated envBase 0 (by decide) (by decide) rfl rfl
    (by decide) rfl
  exact ⟨h.1, h.2.1, h.2.2 rfl⟩

end Obsign
